import Mathlib

/-!
Verification development for the agent-arena repository
(`src/agents/spawner/spawn_agent.py` and `src/arena/orchestrator.py`).

The Python code is shallowly embedded: every subprocess launch is recorded
in an explicit trace of `SysCall`s, nondeterministic inputs (timestamps,
uuids, subprocess outcomes) are supplied by an explicit environment record,
and file writes are returned as explicit lists.  Python dictionaries read
with `.get(k, d)` become `Option.getD`; direct indexing `d[k]` becomes a
`KeyError`-style error value when the key is absent.
-/

/-- One OS-level process interaction performed by the code.
`run` models a (blocking) `subprocess.run`, `popen` models the
non-blocking `subprocess.Popen(cmd, shell=True)` used on Windows, and
`execvp` models `os.execvp`, which replaces the current process and is
not a subprocess call. -/
inductive SysCall where
  | run (argv : List String)
  | popen (cmd : String)
  | execvp (file : String) (argv : List String)
  deriving Repr, DecidableEq

/-- Whether a `SysCall` is a blocking subprocess call (`subprocess.run`). -/
def SysCall.isBlockingRun : SysCall → Bool
  | .run _ => true
  | _ => false

/-- Number of blocking subprocess calls in a trace. -/
def blockingCount (cs : List SysCall) : Nat :=
  (cs.filter SysCall.isBlockingRun).length

/-- Whether a `SysCall` is the branch-creating `git checkout -b` command. -/
def SysCall.isBranchCreate : SysCall → Bool
  | .run ("git" :: "checkout" :: "-b" :: _) => true
  | _ => false

/-- Outcome the OS gives to one `subprocess.run` invocation:
whether it exited successfully (`check=True` raises otherwise), its
captured stdout / stderr, and the `str(e)` rendering of the raised
exception when one is raised. -/
structure ProcOutput where
  exitSuccess : Bool
  stdout : String
  stderr : String
  excStr : String
  deriving Repr

/-- Environment of one spawner call: the strings `datetime.now()` and
`uuid.uuid4()` would produce, the OS response to each `subprocess.run`
argv, and whether `subprocess.Popen` itself raises (Windows path). -/
structure SpawnEnv where
  nowStamp : String
  uuid6 : String
  nowIso : String
  runOutcome : List String → ProcOutput
  popenOk : Bool
  popenExcStr : String

/-- The three values `_detect_platform` can return. -/
inductive Platform where
  | linux
  | macos
  | windows
  deriving Repr, DecidableEq

/-- The platform string stored in spawn records. -/
def Platform.name : Platform → String
  | .linux => "linux"
  | .macos => "macos"
  | .windows => "windows"

/-- `AgentSpawner.__init__` sets exactly one attribute:
`self.platform = self._detect_platform()`. -/
structure AgentSpawner where
  platform : Platform
  deriving Repr, DecidableEq

/-- Abstracts `REPO_ROOT = Path(__file__).parent.parent.parent`: the
repository root path as a string. -/
def REPO_ROOT : String := "/repo"

/-- `RUNS_DIR = REPO_ROOT / "arena" / "runs"`. -/
def RUNS_DIR : String := REPO_ROOT ++ "/arena/runs"

/-- Python `s.startswith(pre)`: `pre` is a prefix of `s`. -/
def pyStartswith (s pre : String) : Bool :=
  pre.data.isPrefixOf s.data

/-- Python `needle in hay` on strings: substring containment. -/
def pyIn (needle hay : String) : Bool :=
  decide (needle.data <:+: hay.data)

/-- Python `v or dflt` for an optional string: `None` and `""` are falsy. -/
def pyOrStr (v : Option String) (dflt : String) : String :=
  match v with
  | none => dflt
  | some s => if s = "" then dflt else s

/-- The `AgentSpawner.MODELS` table, verbatim. -/
def MODELS : List (String × List (String × String)) :=
  [("claude", [("default", "sonnet"), ("fast", "haiku"), ("heavy", "opus")]),
   ("gemini", [("default", "gemini-2.5-pro"), ("fast", "gemini-2.5-flash"),
               ("heavy", "gemini-2.5-pro")]),
   ("codex", [("default", "gpt-4.1"), ("fast", "gpt-4.1-mini"),
              ("heavy", "gpt-4.1")])]

/-- `self.MODELS.get(agent_type, {}).get(model_tier, "default")`. -/
def resolveModel (agent_type model_tier : String) : String :=
  ((((MODELS.lookup agent_type).getD []).lookup model_tier).getD "default")

/-- Character-level body of `prompt.replace('"', '\\"')`: every `"` in
the prompt becomes `\"`, all other characters are kept. -/
def escapeQuotesChars : List Char → List Char
  | [] => []
  | c :: cs =>
    if c = '"' then '\\' :: '"' :: escapeQuotesChars cs
    else c :: escapeQuotesChars cs

/-- `prompt.replace('"', '\\"')`. -/
def escapeQuotes (prompt : String) : String :=
  ⟨escapeQuotesChars prompt.data⟩

/-- `self.COMMANDS.get(agent_type)` followed by
`.format(prompt=escaped_prompt, model=model)`: the shell command string
per agent type, `none` when the agent type is not a key of `COMMANDS`
(which makes `spawn` raise `ValueError`). -/
def buildCmd (agent_type escaped_prompt model : String) : Option String :=
  if agent_type = "claude" then
    some ("claude --dangerously-skip-permissions \"" ++ escaped_prompt ++ "\"")
  else if agent_type = "gemini" then
    some ("gemini --model " ++ model ++ " -y \"" ++ escaped_prompt ++ "\"")
  else if agent_type = "codex" then
    some ("codex -m " ++ model ++ " --dangerously-bypass-approvals-and-sandbox \""
          ++ escaped_prompt ++ "\"")
  else none

/-- `if output_file: cmd = f"{cmd} 2>&1 | tee {output_file}"`. -/
def addOutputTee (cmd : String) (output_file : Option String) : String :=
  match output_file with
  | none => cmd
  | some o => if o = "" then cmd else cmd ++ " 2>&1 | tee " ++ o

/-- The dict `_spawn_*` helpers return: `success` plus the `message`
(on success) or `error` (on failure) string. -/
structure LaunchResult where
  success : Bool
  message : String
  deriving Repr, DecidableEq

/-- `AgentSpawner._spawn_tmux`: one `subprocess.run` of
`tmux new-session -d -s session_name -c work_dir cmd`. -/
def spawn_tmux (env : SpawnEnv) (session_name cmd work_dir : String) :
    LaunchResult × List SysCall :=
  let tmux_cmd := ["tmux", "new-session", "-d", "-s", session_name, "-c", work_dir, cmd]
  let r := env.runOutcome tmux_cmd
  (if r.exitSuccess then ⟨true, "Spawned tmux session: " ++ session_name⟩
   else ⟨false, r.stderr⟩,
   [.run tmux_cmd])

/-- Character-level body of
`cmd.replace("\\", "\\\\").replace('"', '\\"')`: the first pass doubles
every backslash and leaves quotes alone, the second turns every quote
into `\"` and leaves the pass-one backslashes alone, so the composition
maps `\` to `\\`, `"` to `\"` and keeps everything else. -/
def escapeApplescriptChars : List Char → List Char
  | [] => []
  | c :: cs =>
    if c = '\\' then '\\' :: '\\' :: escapeApplescriptChars cs
    else if c = '"' then '\\' :: '"' :: escapeApplescriptChars cs
    else c :: escapeApplescriptChars cs

/-- `AgentSpawner._spawn_macos`: one `subprocess.run` of
`osascript -e <applescript>`. -/
def spawn_macos (env : SpawnEnv) (session_name cmd work_dir : String) :
    LaunchResult × List SysCall :=
  let escaped_cmd : String := ⟨escapeApplescriptChars cmd.data⟩
  let applescript :=
    "\n        tell application \"Terminal\"\n            do script \"cd "
    ++ work_dir ++ " && " ++ escaped_cmd
    ++ "\"\n            activate\n        end tell\n        "
  let argv := ["osascript", "-e", applescript]
  let r := env.runOutcome argv
  (if r.exitSuccess then ⟨true, "Spawned Terminal window: " ++ session_name⟩
   else ⟨false, r.excStr⟩,
   [.run argv])

/-- `AgentSpawner._spawn_windows`: one non-blocking
`subprocess.Popen(full_cmd, shell=True)`. -/
def spawn_windows (env : SpawnEnv) (session_name cmd work_dir : String) :
    LaunchResult × List SysCall :=
  let full_cmd := "start cmd /k \"cd /d " ++ work_dir ++ " && " ++ cmd ++ "\""
  (if env.popenOk then ⟨true, "Spawned cmd window: " ++ session_name⟩
   else ⟨false, env.popenExcStr⟩,
   [.popen full_cmd])

/-- The platform dispatch inside `spawn` (`_detect_platform` only ever
returns one of the three modelled platforms, so the trailing
`RuntimeError` branch is unreachable). -/
def launch (p : Platform) (env : SpawnEnv) (session_name cmd work_dir : String) :
    LaunchResult × List SysCall :=
  match p with
  | .linux => spawn_tmux env session_name cmd work_dir
  | .macos => spawn_macos env session_name cmd work_dir
  | .windows => spawn_windows env session_name cmd work_dir

/-- The auto-generated session name
`f"{agent_type}_{timestamp}_{uuid.uuid4().hex[:6]}"`. -/
def autoSessionName (agent_type : String) (env : SpawnEnv) : String :=
  agent_type ++ "_" ++ env.nowStamp ++ "_" ++ env.uuid6

/-- The `spawn_info` dict built by `AgentSpawner.spawn`. -/
structure SpawnInfo where
  session_name : String
  agent_type : String
  model : String
  model_tier : String
  prompt : String
  working_dir : String
  challenge_id : Option String
  output_file : Option String
  timestamp : String
  platform : String
  result : LaunchResult
  deriving Repr, DecidableEq

/-- Full effect of one `AgentSpawner.spawn` call: the returned dict (or
the `ValueError` message), the subprocess trace, and the JSON files
written by `_log_spawn` (path paired with the dumped record). -/
structure SpawnResult where
  outcome : Except String SpawnInfo
  calls : List SysCall
  writes : List (String × SpawnInfo)
  deriving Repr

/-- `AgentSpawner.spawn`.  Arguments follow the Python signature:
`agent_type, prompt, session_name=None, model_tier="default",
working_dir=None, challenge_id=None, output_file=None`.  `None` and the
empty string are both falsy for `session_name`, `working_dir` and
`output_file`, matching `if not session_name` / `working_dir or ...` /
`if output_file`. -/
def AgentSpawner.spawn (sp : AgentSpawner) (env : SpawnEnv)
    (agent_type prompt : String) (session_name : Option String)
    (model_tier : String) (working_dir : Option String)
    (challenge_id : Option String) (output_file : Option String) : SpawnResult :=
  let sname :=
    match session_name with
    | none => autoSessionName agent_type env
    | some s => if s = "" then autoSessionName agent_type env else s
  let model := resolveModel agent_type model_tier
  match buildCmd agent_type (escapeQuotes prompt) model with
  | none => ⟨.error ("Unknown agent type: " ++ agent_type), [], []⟩
  | some cmd0 =>
    let cmd := addOutputTee cmd0 output_file
    let work_dir := pyOrStr working_dir REPO_ROOT
    let lr := launch sp.platform env sname cmd work_dir
    let spawn_info : SpawnInfo :=
      { session_name := sname
        agent_type := agent_type
        model := model
        model_tier := model_tier
        prompt := prompt
        working_dir := work_dir
        challenge_id := challenge_id
        output_file := output_file
        timestamp := env.nowIso
        platform := sp.platform.name
        result := lr.1 }
    ⟨.ok spawn_info, lr.2, [(RUNS_DIR ++ "/" ++ sname ++ ".json", spawn_info)]⟩

/-- `AgentSpawner.list_sessions`: on linux, one `subprocess.run` of
`tmux list-sessions -F #\x7bsession_name\x7d`, whose stdout (when
non-empty, i.e. truthy) is stripped and split on newlines, then filtered
by `s.startswith(agent_type)` when an agent type is given; on any other
platform, `[]` with no subprocess call. -/
def AgentSpawner.list_sessions (sp : AgentSpawner) (env : SpawnEnv)
    (agent_type : Option String) : List String × List SysCall :=
  match sp.platform with
  | .linux =>
    let argv := ["tmux", "list-sessions", "-F", "#\x7bsession_name\x7d"]
    let r := env.runOutcome argv
    let sessions := if r.stdout ≠ "" then r.stdout.trim.splitOn "\n" else []
    let sessions :=
      match agent_type with
      | some t => sessions.filter (fun s => pyStartswith s t)
      | none => sessions
    (sessions, [.run argv])
  | _ => ([], [])

/-- `AgentSpawner.attach_session`: on linux, `os.execvp` into
`tmux attach-session -t session_name`; otherwise nothing. -/
def AgentSpawner.attach_session (sp : AgentSpawner) (session_name : String) :
    List SysCall :=
  match sp.platform with
  | .linux => [.execvp "tmux" ["tmux", "attach-session", "-t", session_name]]
  | _ => []

/-- `AgentSpawner.kill_session`: on linux, one `subprocess.run` of
`tmux kill-session -t session_name`; otherwise a failure dict with no
subprocess call. -/
def AgentSpawner.kill_session (sp : AgentSpawner) (env : SpawnEnv)
    (session_name : String) : LaunchResult × List SysCall :=
  match sp.platform with
  | .linux =>
    let argv := ["tmux", "kill-session", "-t", session_name]
    let r := env.runOutcome argv
    (if r.exitSuccess then ⟨true, "Killed session: " ++ session_name⟩
     else ⟨false, r.stderr⟩,
     [.run argv])
  | _ => (⟨false, "Not supported on this platform"⟩, [])

/-- `AgentSpawner.capture_output`: on linux, one `subprocess.run` of
`tmux capture-pane -t session_name -p -S -lines`; otherwise `""` with no
subprocess call. -/
def AgentSpawner.capture_output (sp : AgentSpawner) (env : SpawnEnv)
    (session_name : String) (lines : Nat) : String × List SysCall :=
  match sp.platform with
  | .linux =>
    let argv := ["tmux", "capture-pane", "-t", session_name, "-p", "-S",
                 "-" ++ toString lines]
    ((env.runOutcome argv).stdout, [.run argv])
  | _ => ("", [])

/-- One entry of the `agents` list passed to `spawn_multi`.  `type` and
`prompt` are read with direct indexing, `name` and `model_tier` with
`.get`. -/
structure AgentCfg where
  type : String
  prompt : String
  name : Option String
  model_tier : Option String
  deriving Repr, DecidableEq

/-- Aggregate effect of `spawn_multi`. -/
structure MultiResult where
  outcome : Except String (List SpawnInfo)
  calls : List SysCall
  writes : List (String × SpawnInfo)
  deriving Repr

/-- The loop body of `spawn_multi`: spawns each config in order with the
freshly constructed spawner; a raised `ValueError` aborts the loop.
`envs i` is the environment (clock, uuid, OS) of the `i`-th spawn call. -/
def spawnMultiAux (p : Platform) (envs : Nat → SpawnEnv)
    (challenge_id : Option String) : Nat → List AgentCfg → MultiResult
  | _, [] => ⟨.ok [], [], []⟩
  | i, a :: rest =>
    let r := AgentSpawner.spawn ⟨p⟩ (envs i) a.type a.prompt a.name
      (a.model_tier.getD "default") none challenge_id none
    match r.outcome with
    | .error e => ⟨.error e, r.calls, r.writes⟩
    | .ok info =>
      let m := spawnMultiAux p envs challenge_id (i + 1) rest
      ⟨m.outcome.map (fun l => info :: l), r.calls ++ m.calls, r.writes ++ m.writes⟩

/-- `spawn_multi(agents, challenge_id)`. -/
def spawn_multi (p : Platform) (envs : Nat → SpawnEnv)
    (agents : List AgentCfg) (challenge_id : Option String) : MultiResult :=
  spawnMultiAux p envs challenge_id 0 agents

/-- Abstract git state: the set of local branches, the checked-out
branch, and the previously checked-out branch (the target of
`git checkout -`). -/
structure GitState where
  branches : List String
  current : String
  prev : String
  deriving Repr, DecidableEq

/-- Semantics of `git checkout -b name`: fails (leaving the state
unchanged) when the branch already exists, otherwise creates the branch
at the current HEAD and switches to it.  The Boolean reports success,
i.e. whether `subprocess.run(..., check=True)` does not raise. -/
def gitCheckoutB (st : GitState) (name : String) : GitState × Bool :=
  if name ∈ st.branches then (st, false)
  else ({ branches := name :: st.branches, current := name, prev := st.current }, true)

/-- Semantics of `git checkout -`: switch back to the previous branch. -/
def gitCheckoutDash (st : GitState) : GitState :=
  { branches := st.branches, current := st.prev, prev := st.current }

/-- `f"{branch_prefix}_{agent_type}_{i}"`. -/
def branchName (pfx agent_type : String) (i : Nat) : String :=
  pfx ++ "_" ++ agent_type ++ "_" ++ toString i

/-- One iteration of the `_prepare_branches` loop for agent index `i`:
query `git branch --list`, whose stripped stdout is non-empty exactly
when the branch exists (the branch names built here are never empty),
and when it is empty try `git checkout -b` followed by
`git checkout -` (the second call is skipped if the first raises). -/
def prepareBranchStep (st : GitState) (pfx agent_type : String) (i : Nat) :
    GitState × List SysCall :=
  let name := branchName pfx agent_type i
  let query := SysCall.run ["git", "branch", "--list", name]
  if name ∈ st.branches then (st, [query])
  else
    let c := gitCheckoutB st name
    if c.2 then
      (gitCheckoutDash c.1,
       [query, .run ["git", "checkout", "-b", name], .run ["git", "checkout", "-"]])
    else (c.1, [query, .run ["git", "checkout", "-b", name]])

/-- The `for i, agent_type in enumerate(agent_types)` loop of
`_prepare_branches`, starting at index `i`. -/
def prepareBranchesAux (pfx : String) : GitState → List String → Nat → GitState × List SysCall
  | st, [], _ => (st, [])
  | st, a :: rest, i =>
    let p := prepareBranchStep st pfx a i
    let q := prepareBranchesAux pfx p.1 rest (i + 1)
    (q.1, p.2 ++ q.2)

/-- The branch-preparation loop of `ChallengeOrchestrator._prepare_branches`,
run over the whole `agent_types` list from index `0`. -/
def prepareBranches (st : GitState) (pfx : String) (agent_types : List String) :
    GitState × List SysCall :=
  prepareBranchesAux pfx st agent_types 0

/-- The `agents` sub-dictionary of a challenge.  Each field is `none`
when the corresponding key is absent. -/
structure AgentsCfg where
  types : Option (List String)
  model_tier : Option String
  deriving Repr, DecidableEq

/-- The `git` sub-dictionary of a challenge.  `branch_pfx` models the
key named `branch_` + `pfx` in full in the YAML file. -/
structure GitCfg where
  branch_pfx : Option String
  base_branch : Option String
  deriving Repr, DecidableEq

/-- A loaded challenge dictionary (the value `_load_challenge` returns).
Each field is `none` when the key is absent from the YAML file; `ctype`
models the key `type`. -/
structure Challenge where
  id : Option String
  name : Option String
  ctype : Option String
  difficulty : Option String
  prompt : Option String
  agents : Option AgentsCfg
  git : Option GitCfg
  deriving Repr, DecidableEq

/-- `self.challenge.get("agents", {})`. -/
def agentsConfigOf (ch : Challenge) : AgentsCfg :=
  ch.agents.getD ⟨none, none⟩

/-- `agents_config.get("types", ["claude"])`. -/
def agentTypesOf (ch : Challenge) : List String :=
  (agentsConfigOf ch).types.getD ["claude"]

/-- `agents_config.get("model_tier", "default")`. -/
def modelTierOf (ch : Challenge) : String :=
  (agentsConfigOf ch).model_tier.getD "default"

/-- The branch name stem: `self.challenge.get("git", {}).get(<key>, "challenge/agent")`. -/
def branchPfxOf (ch : Challenge) : String :=
  ((ch.git.getD ⟨none, none⟩).branch_pfx).getD "challenge/agent"

/-- `self.challenge.get("git", {}).get("base_branch", "main")` (read by
`_prepare_branches` and then never used). -/
def baseBranchOf (ch : Challenge) : String :=
  ((ch.git.getD ⟨none, none⟩).base_branch).getD "main"

/-- `ChallengeOrchestrator._prepare_branches`: reads all its challenge
keys with defaulted lookups, then runs the branch loop. -/
def prepareBranchesOf (ch : Challenge) (st : GitState) : GitState × List SysCall :=
  prepareBranches st (branchPfxOf ch) (agentTypesOf ch)

/-- The orchestrator object after `__init__`: the loaded challenge, the
timestamp run id, the derived run directory, and the spawner. -/
structure Orchestrator where
  challenge : Challenge
  run_id : String
  run_dir : String
  spawner : AgentSpawner
  deriving Repr, DecidableEq

/-- `ChallengeOrchestrator.__init__` given the already-loaded challenge:
`self.run_dir = RUNS_DIR / f"..."` indexes `self.challenge['id']`
directly, so a challenge without `id` raises `KeyError`. -/
def orchInit (ch : Challenge) (now : String) (p : Platform) : Except String Orchestrator :=
  match ch.id with
  | none => .error "KeyError: id"
  | some cid =>
    .ok { challenge := ch
          run_id := now
          run_dir := RUNS_DIR ++ "/" ++ cid ++ "_" ++ now
          spawner := ⟨p⟩ }

/-- Effect of `ChallengeOrchestrator.prepare`: the first missing directly
indexed key (if any), the git state and subprocess trace of
`_prepare_branches`, the files written, and the method's receiver after
the call. -/
structure PrepareOut where
  keyError : Option String
  git : GitState
  calls : List SysCall
  writes : List String
  self : Orchestrator
  deriving Repr

/-- `ChallengeOrchestrator.prepare`: prints index `challenge['id']` and
`challenge['name']`, writes `challenge.yaml` into the run directory,
runs `_prepare_branches`, then prints `challenge['type']` and
`challenge['difficulty']`.  A missing key raises `KeyError` at that
point, keeping the effects already performed. -/
def Orchestrator.prepare (o : Orchestrator) (st : GitState) : PrepareOut :=
  match o.challenge.id with
  | none => ⟨some "id", st, [], [], o⟩
  | some _ =>
    match o.challenge.name with
    | none => ⟨some "name", st, [], [], o⟩
    | some _ =>
      let w := [o.run_dir ++ "/challenge.yaml"]
      let r := prepareBranchesOf o.challenge st
      match o.challenge.ctype with
      | none => ⟨some "type", r.1, r.2, w, o⟩
      | some _ =>
        match o.challenge.difficulty with
        | none => ⟨some "difficulty", r.1, r.2, w, o⟩
        | some _ => ⟨none, r.1, r.2, w, o⟩

/-- The context-enriched prompt `_build_prompt` returns, assembled from
the challenge id and name, the agent type and instance index, the run id
and the base prompt. -/
def promptContext (cid cname agent_type : String) (index : Nat)
    (run_id base_prompt : String) : String :=
  "\n=== DREAM TEAM ARENA ===\nChallenge: #" ++ cid ++ " - " ++ cname
  ++ "\nAgent: " ++ agent_type ++ " (instance " ++ toString index ++ ")\nRun ID: "
  ++ run_id
  ++ "\n\nYou are one of multiple AI agents working on this challenge.\n"
  ++ "Your work will be compared against other agents.\n"
  ++ "Do your best work. Be creative. Push boundaries.\n\n=== CHALLENGE ===\n\n"
  ++ base_prompt
  ++ "\n\n=== INSTRUCTIONS ===\n1. Work in this repository: " ++ REPO_ROOT
  ++ "\n2. Commit your changes frequently with clear messages\n"
  ++ "3. Document your approach and decisions\n"
  ++ "4. When finished, ensure all changes are committed\n\nGood luck, agent.\n"

/-- Result of `_build_prompt`: the missing key (if one is indexed while
absent) or the built prompt, plus the receiver after the call. -/
structure BuildPromptOut where
  keyError : Option String
  prompt : String
  self : Orchestrator
  deriving Repr

/-- `ChallengeOrchestrator._build_prompt`: `base_prompt` is read with a
default, but the context f-string indexes `challenge['id']` and
`challenge['name']` directly. -/
def Orchestrator.build_prompt (o : Orchestrator) (agent_type : String) (index : Nat) :
    BuildPromptOut :=
  let base_prompt := o.challenge.prompt.getD ""
  match o.challenge.id with
  | none => ⟨some "id", "", o⟩
  | some cid =>
    match o.challenge.name with
    | none => ⟨some "name", "", o⟩
    | some cname =>
      ⟨none, promptContext cid cname agent_type index o.run_id base_prompt, o⟩

/-- Effect of `ChallengeOrchestrator.spawn_agents`. -/
structure SpawnAgentsOut where
  keyError : Option String
  results : Except String (List SpawnInfo)
  calls : List SysCall
  writes : List (String × SpawnInfo)
  self : Orchestrator
  deriving Repr

/-- `ChallengeOrchestrator.spawn_agents`: reads the agent list and model
tier with defaults, but indexes `challenge['id']` directly (both in the
session names and in the final `spawn_multi` call) and, through
`_build_prompt`, `challenge['name']` whenever at least one agent config
is built.  The configs pass the context prompt, the session name
`dream_<id>_<type>_<i>` and the shared model tier to `spawn_multi`. -/
def Orchestrator.spawn_agents (o : Orchestrator) (envs : Nat → SpawnEnv) :
    SpawnAgentsOut :=
  let types := agentTypesOf o.challenge
  let tier := modelTierOf o.challenge
  match o.challenge.id with
  | none => ⟨some "id", .error "KeyError: id", [], [], o⟩
  | some cid =>
    if !types.isEmpty && o.challenge.name.isNone then
      ⟨some "name", .error "KeyError: name", [], [], o⟩
    else
      let cname := o.challenge.name.getD ""
      let cfgs := types.enum.map fun p =>
        { type := p.2
          prompt := promptContext cid cname p.2 p.1 o.run_id (o.challenge.prompt.getD "")
          name := some ("dream_" ++ cid ++ "_" ++ p.2 ++ "_" ++ toString p.1)
          model_tier := some tier : AgentCfg }
      let m := spawn_multi o.spawner.platform envs cfgs (some cid)
      ⟨none, m.outcome, m.calls, m.writes, o⟩

/-- Effect of `ChallengeOrchestrator.monitor`. -/
structure MonitorOut where
  keyError : Option String
  calls : List SysCall
  self : Orchestrator
  deriving Repr

/-- `ChallengeOrchestrator.monitor`: each iteration re-queries
`list_sessions()` and keeps the sessions whose name contains
`dream_<challenge id>` (indexing `challenge['id']` directly); it stops
when none remain.  `fuel` bounds the number of polling iterations of the
otherwise unbounded `while True` loop; `envs n` is the OS state at the
`n`-th poll. -/
def Orchestrator.monitor (o : Orchestrator) (envs : Nat → SpawnEnv) :
    Nat → MonitorOut
  | 0 => ⟨none, [], o⟩
  | fuel + 1 =>
    let q := o.spawner.list_sessions (envs 0) none
    match o.challenge.id with
    | none => ⟨some "id", q.2, o⟩
    | some cid =>
      let challenge_sessions := q.1.filter (fun s => pyIn ("dream_" ++ cid) s)
      if challenge_sessions.isEmpty then ⟨none, q.2, o⟩
      else
        let rest := o.monitor (fun n => envs (n + 1)) fuel
        ⟨rest.keyError, q.2 ++ rest.calls, o⟩

/-- Effect of `ChallengeOrchestrator.run`. -/
structure RunOut where
  keyError : Option String
  git : GitState
  calls : List SysCall
  self : Orchestrator
  deriving Repr

/-- `ChallengeOrchestrator.run`: `prepare`, then `spawn_agents` unless
`skip_spawn`; a raised `KeyError` propagates and aborts the sequence
(`auto_evaluate` only prints in the modelled code). -/
def Orchestrator.run (o : Orchestrator) (st : GitState) (envs : Nat → SpawnEnv)
    (skip_spawn : Bool) : RunOut :=
  let p := o.prepare st
  match p.keyError with
  | some k => ⟨some k, p.git, p.calls, o⟩
  | none =>
    if skip_spawn then ⟨none, p.git, p.calls, o⟩
    else
      let s := o.spawn_agents envs
      ⟨s.keyError, p.git, p.calls ++ s.calls, o⟩

/-- A concrete environment for witnesses: deterministic clock and uuid,
every subprocess call succeeds with empty output. -/
def cEnv : SpawnEnv :=
  { nowStamp := "20250101_000000"
    uuid6 := "abc123"
    nowIso := "2025-01-01T00:00:00"
    runOutcome := fun _ => ⟨true, "", "", ""⟩
    popenOk := true
    popenExcStr := "" }

/-- An environment whose terminal multiplexer reports one running
claude session. -/
def sessionsEnv : SpawnEnv :=
  { cEnv with runOutcome := fun _ => ⟨true, "claude_20250101_000000_abc123\n", "", ""⟩ }

/-- A git state holding only `main`. -/
def mainGit : GitState := ⟨["main"], "main", "main"⟩

/-- A git state in which the branch for agent 0 of type claude under the
default branch stem already exists. -/
def preparedGit : GitState := ⟨["challenge/agent_claude_0", "main"], "main", "main"⟩

/-- The challenge dictionary with every key absent. -/
def emptyChallenge : Challenge := ⟨none, none, none, none, none, none, none⟩

/-- A fully populated challenge dictionary. -/
def fullChallenge : Challenge :=
  { id := some "42"
    name := some "Sample"
    ctype := some "code"
    difficulty := some "easy"
    prompt := some "Build it"
    agents := some ⟨some ["claude"], some "fast"⟩
    git := some ⟨some "challenge/agent", some "main"⟩ }

/-- An orchestrator over `fullChallenge` on linux. -/
def cOrch : Orchestrator :=
  { challenge := fullChallenge
    run_id := "20250101_000000"
    run_dir := RUNS_DIR ++ "/42_20250101_000000"
    spawner := ⟨.linux⟩ }

/-- An orchestrator whose challenge lacks every key. -/
def emptyOrch : Orchestrator :=
  { challenge := emptyChallenge
    run_id := "20250101_000000"
    run_dir := RUNS_DIR ++ "/x"
    spawner := ⟨.linux⟩ }

/-- The spawn record produced by
`AgentSpawner.spawn ⟨.linux⟩ cEnv "claude" "p" none "default" none none none`. -/
def cInfo : SpawnInfo :=
  { session_name := "claude_20250101_000000_abc123"
    agent_type := "claude"
    model := "sonnet"
    model_tier := "default"
    prompt := "p"
    working_dir := "/repo"
    challenge_id := none
    output_file := none
    timestamp := "2025-01-01T00:00:00"
    platform := "linux"
    result := ⟨true, "Spawned tmux session: claude_20250101_000000_abc123"⟩ }

/-- A concrete two-agent configuration list for `spawn_multi`. -/
def cAgents : List AgentCfg :=
  [⟨"claude", "p1", none, none⟩, ⟨"gemini", "p2", some "s2", some "heavy"⟩]

/-- An orchestrator whose challenge has `id` but lacks `name` (and the
rest); its agent-type list defaults to the non-empty `["claude"]`. -/
def idOnlyOrch : Orchestrator :=
  { challenge := { id := some "42", name := none, ctype := none, difficulty := none,
                   prompt := none, agents := none, git := none }
    run_id := "20250101_000000"
    run_dir := RUNS_DIR ++ "/42_20250101_000000"
    spawner := ⟨.linux⟩ }

/-- An orchestrator whose challenge has `id`, an explicitly empty
`agents.types` list, and no `name`. -/
def emptyTypesOrch : Orchestrator :=
  { challenge := { id := some "42", name := none, ctype := none, difficulty := none,
                   prompt := none, agents := some ⟨some [], none⟩, git := none }
    run_id := "20250101_000000"
    run_dir := RUNS_DIR ++ "/42_20250101_000000"
    spawner := ⟨.linux⟩ }

theorem prepareBranchStep_of_mem (st : GitState) (pfx a : String) (i : Nat)
    (h : branchName pfx a i ∈ st.branches) :
    prepareBranchStep st pfx a i
      = (st, [SysCall.run ["git", "branch", "--list", branchName pfx a i]]) := by
  simp [prepareBranchStep, h]

theorem prepareBranchStep_of_not_mem (st : GitState) (pfx a : String) (i : Nat)
    (h : branchName pfx a i ∉ st.branches) :
    prepareBranchStep st pfx a i
      = (⟨branchName pfx a i :: st.branches, st.current, branchName pfx a i⟩,
         [SysCall.run ["git", "branch", "--list", branchName pfx a i],
          SysCall.run ["git", "checkout", "-b", branchName pfx a i],
          SysCall.run ["git", "checkout", "-"]]) := by
  simp [prepareBranchStep, gitCheckoutB, gitCheckoutDash, h]

theorem prepareBranchStep_mem (st : GitState) (pfx a : String) (i : Nat) (b : String)
    (hb : b ∈ st.branches) : b ∈ (prepareBranchStep st pfx a i).1.branches := by
  by_cases h : branchName pfx a i ∈ st.branches
  · rw [prepareBranchStep_of_mem st pfx a i h]; exact hb
  · rw [prepareBranchStep_of_not_mem st pfx a i h]
    exact List.mem_cons_of_mem _ hb

theorem prepareBranchStep_self_mem (st : GitState) (pfx a : String) (i : Nat) :
    branchName pfx a i ∈ (prepareBranchStep st pfx a i).1.branches := by
  by_cases h : branchName pfx a i ∈ st.branches
  · rw [prepareBranchStep_of_mem st pfx a i h]; exact h
  · rw [prepareBranchStep_of_not_mem st pfx a i h]
    exact List.mem_cons_self _ _

theorem prepareBranchesAux_mem (pfx : String) :
    ∀ (types : List String) (st : GitState) (i : Nat) (b : String),
      b ∈ st.branches → b ∈ (prepareBranchesAux pfx st types i).1.branches
  | [], _, _, _, hb => hb
  | a :: rest, st, i, b, hb =>
    prepareBranchesAux_mem pfx rest (prepareBranchStep st pfx a i).1 (i + 1) b
      (prepareBranchStep_mem st pfx a i b hb)

theorem prepareBranchesAux_post (pfx : String) :
    ∀ (types : List String) (st : GitState) (i : Nat) (j : Nat) (hj : j < types.length),
      branchName pfx (types.get ⟨j, hj⟩) (i + j)
        ∈ (prepareBranchesAux pfx st types i).1.branches
  | a :: rest, st, i, 0, _ =>
    prepareBranchesAux_mem pfx rest (prepareBranchStep st pfx a i).1 (i + 1) _
      (prepareBranchStep_self_mem st pfx a i)
  | a :: rest, st, i, j + 1, hj => by
    have h := prepareBranchesAux_post pfx rest (prepareBranchStep st pfx a i).1 (i + 1) j
      (Nat.lt_of_succ_lt_succ hj)
    have hidx : i + 1 + j = i + (j + 1) := by omega
    rw [hidx] at h
    exact h

theorem prepareBranchesAux_of_all (pfx : String) :
    ∀ (types : List String) (st : GitState) (i : Nat),
      (∀ j (hj : j < types.length), branchName pfx (types.get ⟨j, hj⟩) (i + j) ∈ st.branches) →
      (prepareBranchesAux pfx st types i).1 = st ∧
      ∀ c ∈ (prepareBranchesAux pfx st types i).2, c.isBranchCreate = false
  | [], st, i, _ => ⟨rfl, by simp [prepareBranchesAux]⟩
  | a :: rest, st, i, h => by
    have h0 : branchName pfx a i ∈ st.branches := by simpa using h 0 (by simp)
    have hstep := prepareBranchStep_of_mem st pfx a i h0
    have hrest := prepareBranchesAux_of_all pfx rest st (i + 1) (fun j hj => by
      have hx := h (j + 1) (Nat.succ_lt_succ hj)
      have hidx : i + (j + 1) = i + 1 + j := by omega
      rw [hidx] at hx
      simpa using hx)
    have hred : prepareBranchesAux pfx st (a :: rest) i
        = ((prepareBranchesAux pfx st rest (i + 1)).1,
           [SysCall.run ["git", "branch", "--list", branchName pfx a i]]
             ++ (prepareBranchesAux pfx st rest (i + 1)).2) := by
      show ((prepareBranchesAux pfx (prepareBranchStep st pfx a i).1 rest (i + 1)).1,
            (prepareBranchStep st pfx a i).2
              ++ (prepareBranchesAux pfx (prepareBranchStep st pfx a i).1 rest (i + 1)).2) = _
      rw [hstep]
    refine ⟨by rw [hred]; exact hrest.1, ?_⟩
    rw [hred]
    intro c hc
    rcases List.mem_append.mp hc with hc | hc
    · rcases List.mem_singleton.mp hc with rfl
      rfl
    · exact hrest.2 c hc

theorem agent_type_cases (agent_type : String)
    (h : agent_type ∈ (["claude", "gemini", "codex"] : List String)) :
    agent_type = "claude" ∨ agent_type = "gemini" ∨ agent_type = "codex" := by
  simpa using h

theorem spawn_outcome_ok (sp : AgentSpawner) (env : SpawnEnv)
    (agent_type prompt : String) (session_name : Option String) (model_tier : String)
    (working_dir challenge_id output_file : Option String)
    (h : agent_type ∈ (["claude", "gemini", "codex"] : List String)) :
    ∃ info, (sp.spawn env agent_type prompt session_name model_tier working_dir
      challenge_id output_file).outcome = Except.ok info := by
  rcases agent_type_cases agent_type h with rfl | rfl | rfl <;> exact ⟨_, rfl⟩

theorem spawnMultiAux_ok (p : Platform) (envs : Nat → SpawnEnv) (cid : Option String) :
    ∀ (agents : List AgentCfg) (i : Nat),
      (∀ a ∈ agents, a.type ∈ (["claude", "gemini", "codex"] : List String)) →
      ∃ infos, (spawnMultiAux p envs cid i agents).outcome = Except.ok infos ∧
        infos.length = agents.length ∧
        ∀ j, j < agents.length →
          ∃ a info, agents[j]? = some a ∧ infos[j]? = some info ∧
            (AgentSpawner.spawn ⟨p⟩ (envs (i + j)) a.type a.prompt a.name
              (a.model_tier.getD "default") none cid none).outcome = Except.ok info
  | [], _, _ => ⟨[], rfl, rfl, fun j hj => absurd hj (by simp)⟩
  | a :: rest, i, h => by
    obtain ⟨info, hinfo⟩ := spawn_outcome_ok ⟨p⟩ (envs i) a.type a.prompt a.name
      (a.model_tier.getD "default") none cid none (h a (List.mem_cons_self a rest))
    obtain ⟨infos, hout, hlen, hidx⟩ := spawnMultiAux_ok p envs cid rest (i + 1)
      (fun b hb => h b (List.mem_cons_of_mem a hb))
    refine ⟨info :: infos, ?_, by simpa using hlen, ?_⟩
    · show (match (AgentSpawner.spawn ⟨p⟩ (envs i) a.type a.prompt a.name
          (a.model_tier.getD "default") none cid none).outcome with
        | .error e => (⟨.error e, _, _⟩ : MultiResult)
        | .ok info =>
          ⟨(spawnMultiAux p envs cid (i + 1) rest).outcome.map (fun l => info :: l), _, _⟩).outcome
        = Except.ok (info :: infos)
      rw [hinfo]
      simp [hout, Except.map]
    · intro j hj
      cases j with
      | zero => exact ⟨a, info, by simp, by simp, hinfo⟩
      | succ j' =>
        obtain ⟨b, info', hb, hinfo', hsp⟩ := hidx j' (by simpa using hj)
        refine ⟨b, info', by simpa using hb, by simpa using hinfo', ?_⟩
        have hidx2 : i + (j' + 1) = i + 1 + j' := by omega
        rw [hidx2]
        exact hsp

theorem list_sessions_filter_eq (env : SpawnEnv) (t : String) :
    (AgentSpawner.list_sessions ⟨.linux⟩ env (some t)).1
      = ((AgentSpawner.list_sessions ⟨.linux⟩ env none).1).filter
          (fun s => pyStartswith s t) := rfl

theorem prepare_self (o : Orchestrator) (st : GitState) :
    (o.prepare st).self = o := by
  unfold Orchestrator.prepare
  cases o.challenge.id <;> cases o.challenge.name <;>
    cases o.challenge.ctype <;> cases o.challenge.difficulty <;> rfl

theorem build_prompt_self (o : Orchestrator) (agent_type : String) (index : Nat) :
    (o.build_prompt agent_type index).self = o := by
  unfold Orchestrator.build_prompt
  cases o.challenge.id <;> cases o.challenge.name <;> rfl

theorem spawn_agents_self (o : Orchestrator) (envs : Nat → SpawnEnv) :
    (o.spawn_agents envs).self = o := by
  unfold Orchestrator.spawn_agents
  cases o.challenge.id with
  | none => rfl
  | some cid =>
    by_cases hb : !(agentTypesOf o.challenge).isEmpty && o.challenge.name.isNone <;>
      simp [hb]

theorem monitor_self (o : Orchestrator) : ∀ (envs : Nat → SpawnEnv) (fuel : Nat),
    (o.monitor envs fuel).self = o
  | _, 0 => rfl
  | envs, fuel + 1 => by
    unfold Orchestrator.monitor
    cases o.challenge.id with
    | none => rfl
    | some cid =>
      by_cases hb : ((o.spawner.list_sessions (envs 0) none).1.filter
          (fun s => pyIn ("dream_" ++ cid) s)).isEmpty <;> simp [hb]

theorem run_self (o : Orchestrator) (st : GitState) (envs : Nat → SpawnEnv)
    (skip_spawn : Bool) : (o.run st envs skip_spawn).self = o := by
  unfold Orchestrator.run
  cases h : (o.prepare st).keyError with
  | none => by_cases hs : skip_spawn <;> simp [h, hs]
  | some k => simp [h]

theorem monitor_keyError_none (o : Orchestrator) (h : o.challenge.id ≠ none) :
    ∀ (envs : Nat → SpawnEnv) (fuel : Nat), (o.monitor envs fuel).keyError = none
  | _, 0 => rfl
  | envs, fuel + 1 => by
    obtain ⟨cid, hcid⟩ := Option.ne_none_iff_exists.mp h
    unfold Orchestrator.monitor
    rw [← hcid]
    by_cases hb : ((o.spawner.list_sessions (envs 0) none).1.filter
        (fun s => pyIn ("dream_" ++ cid) s)).isEmpty
    · simp [hb]
    · simp [hb]
      exact monitor_keyError_none o h (fun n => envs (n + 1)) fuel

/-- C9: for every agent type outside claude/gemini/codex, `spawn` raises
`ValueError` before any side effect: no session-launching subprocess
call is made and no JSON log file is written. -/
theorem spawn_unknown_agent_rejected (sp : AgentSpawner) (env : SpawnEnv)
    (agent_type prompt : String) (session_name : Option String) (model_tier : String)
    (working_dir challenge_id output_file : Option String)
    (h1 : agent_type ≠ "claude") (h2 : agent_type ≠ "gemini") (h3 : agent_type ≠ "codex") :
    sp.spawn env agent_type prompt session_name model_tier working_dir challenge_id
        output_file
      = ⟨.error ("Unknown agent type: " ++ agent_type), [], []⟩ := by
  simp [AgentSpawner.spawn, buildCmd, h1, h2, h3]

/-- Witness for `spawn_unknown_agent_rejected` at the agent type `"cursor"`. -/
theorem spawn_unknown_agent_rejected_witness :
    ("cursor" ≠ "claude" ∧ "cursor" ≠ "gemini" ∧ "cursor" ≠ "codex") ∧
    AgentSpawner.spawn ⟨.linux⟩ cEnv "cursor" "p" none "default" none none none
      = ⟨.error ("Unknown agent type: " ++ "cursor"), [], []⟩ :=
  ⟨⟨by decide, by decide, by decide⟩,
   spawn_unknown_agent_rejected ⟨.linux⟩ cEnv "cursor" "p" none "default" none none none
     (by decide) (by decide) (by decide)⟩

/-- C2: the tier table resolves exactly as the `MODELS` table dictates
for each (agent type, tier) pair, and `spawn` records the resolved
identifier in the spawn record's `model` field. -/
theorem model_tier_resolution (sp : AgentSpawner) (env : SpawnEnv)
    (agent_type model_tier prompt : String)
    (session_name working_dir challenge_id output_file : Option String)
    (h1 : agent_type ∈ (["claude", "gemini", "codex"] : List String))
    (h2 : model_tier ∈ (["default", "fast", "heavy"] : List String)) :
    (resolveModel "claude" "default" = "sonnet" ∧
     resolveModel "claude" "fast" = "haiku" ∧
     resolveModel "claude" "heavy" = "opus" ∧
     resolveModel "gemini" "default" = "gemini-2.5-pro" ∧
     resolveModel "gemini" "fast" = "gemini-2.5-flash" ∧
     resolveModel "gemini" "heavy" = "gemini-2.5-pro" ∧
     resolveModel "codex" "default" = "gpt-4.1" ∧
     resolveModel "codex" "fast" = "gpt-4.1-mini" ∧
     resolveModel "codex" "heavy" = "gpt-4.1") ∧
    ∃ info, (sp.spawn env agent_type prompt session_name model_tier working_dir
        challenge_id output_file).outcome = .ok info ∧
      info.model = resolveModel agent_type model_tier := by
  refine ⟨⟨by decide, by decide, by decide, by decide, by decide, by decide, by decide,
    by decide, by decide⟩, ?_⟩
  rcases agent_type_cases agent_type h1 with rfl | rfl | rfl <;> exact ⟨_, rfl, rfl⟩

/-- Witness for `model_tier_resolution` at (`"gemini"`, `"fast"`). -/
theorem model_tier_resolution_witness :
    ("gemini" ∈ (["claude", "gemini", "codex"] : List String) ∧
     "fast" ∈ (["default", "fast", "heavy"] : List String)) ∧
    ((resolveModel "claude" "default" = "sonnet" ∧
      resolveModel "claude" "fast" = "haiku" ∧
      resolveModel "claude" "heavy" = "opus" ∧
      resolveModel "gemini" "default" = "gemini-2.5-pro" ∧
      resolveModel "gemini" "fast" = "gemini-2.5-flash" ∧
      resolveModel "gemini" "heavy" = "gemini-2.5-pro" ∧
      resolveModel "codex" "default" = "gpt-4.1" ∧
      resolveModel "codex" "fast" = "gpt-4.1-mini" ∧
      resolveModel "codex" "heavy" = "gpt-4.1") ∧
     ∃ info, (AgentSpawner.spawn ⟨.linux⟩ cEnv "gemini" "p" none "fast"
         none none none).outcome = .ok info ∧
       info.model = resolveModel "gemini" "fast") :=
  ⟨⟨by decide, by decide⟩,
   model_tier_resolution ⟨.linux⟩ cEnv "gemini" "fast" "p" none none none none
     (by decide) (by decide)⟩

/-- C1: for every supported agent type, `spawn` returns a record holding
the session name, agent type, resolved model, prompt, working directory,
timestamp, platform and the launcher's subprocess result, and persists
exactly that one record as the single file `<session_name>.json` under
the runs directory. -/
theorem spawn_persists_single_record (sp : AgentSpawner) (env : SpawnEnv)
    (agent_type prompt : String) (session_name : Option String) (model_tier : String)
    (working_dir challenge_id output_file : Option String)
    (h : agent_type ∈ (["claude", "gemini", "codex"] : List String)) :
    ∃ info,
      (sp.spawn env agent_type prompt session_name model_tier working_dir challenge_id
        output_file).outcome = .ok info ∧
      (sp.spawn env agent_type prompt session_name model_tier working_dir challenge_id
        output_file).writes = [(RUNS_DIR ++ "/" ++ info.session_name ++ ".json", info)] ∧
      info.agent_type = agent_type ∧
      info.model = resolveModel agent_type model_tier ∧
      info.prompt = prompt ∧
      info.working_dir = pyOrStr working_dir REPO_ROOT ∧
      info.timestamp = env.nowIso ∧
      info.platform = sp.platform.name ∧
      ∃ cmd, info.result
        = (launch sp.platform env info.session_name cmd (pyOrStr working_dir REPO_ROOT)).1 := by
  rcases agent_type_cases agent_type h with rfl | rfl | rfl <;>
    exact ⟨_, rfl, rfl, rfl, rfl, rfl, rfl, rfl, rfl, _, rfl⟩

/-- Witness for `spawn_persists_single_record` at agent type `"claude"`. -/
theorem spawn_persists_single_record_witness :
    ("claude" ∈ (["claude", "gemini", "codex"] : List String)) ∧
    ∃ info,
      (AgentSpawner.spawn ⟨.linux⟩ cEnv "claude" "do the task" none "default" none none
        none).outcome = .ok info ∧
      (AgentSpawner.spawn ⟨.linux⟩ cEnv "claude" "do the task" none "default" none none
        none).writes = [(RUNS_DIR ++ "/" ++ info.session_name ++ ".json", info)] ∧
      info.agent_type = "claude" ∧
      info.model = resolveModel "claude" "default" ∧
      info.prompt = "do the task" ∧
      info.working_dir = pyOrStr none REPO_ROOT ∧
      info.timestamp = cEnv.nowIso ∧
      info.platform = (AgentSpawner.mk .linux).platform.name ∧
      ∃ cmd, info.result
        = (launch (AgentSpawner.mk .linux).platform cEnv info.session_name cmd
            (pyOrStr none REPO_ROOT)).1 :=
  ⟨by decide,
   spawn_persists_single_record ⟨.linux⟩ cEnv "claude" "do the task" none "default"
     none none none (by decide)⟩

/-- C7: `spawn_multi` calls `spawn` exactly once per configuration in
list order — passing its type and prompt, its optional name, its model
tier defaulted to `"default"` and the shared challenge id — and returns
the resulting records in the same order. -/
theorem spawn_multi_in_order (p : Platform) (envs : Nat → SpawnEnv)
    (agents : List AgentCfg) (challenge_id : Option String)
    (h : ∀ a ∈ agents, a.type ∈ (["claude", "gemini", "codex"] : List String)) :
    ∃ infos, (spawn_multi p envs agents challenge_id).outcome = .ok infos ∧
      infos.length = agents.length ∧
      ∀ j, j < agents.length →
        ∃ a info, agents[j]? = some a ∧ infos[j]? = some info ∧
          (AgentSpawner.spawn ⟨p⟩ (envs j) a.type a.prompt a.name
            (a.model_tier.getD "default") none challenge_id none).outcome = .ok info := by
  obtain ⟨infos, h1, h2, h3⟩ := spawnMultiAux_ok p envs challenge_id agents 0 h
  exact ⟨infos, h1, h2, fun j hj => by simpa using h3 j hj⟩

/-- Witness for `spawn_multi_in_order` on `cAgents`. -/
theorem spawn_multi_in_order_witness :
    (∀ a ∈ cAgents, a.type ∈ (["claude", "gemini", "codex"] : List String)) ∧
    ∃ infos, (spawn_multi .linux (fun _ => cEnv) cAgents (some "42")).outcome = .ok infos ∧
      infos.length = cAgents.length ∧
      ∀ j, j < cAgents.length →
        ∃ a info, cAgents[j]? = some a ∧ infos[j]? = some info ∧
          (AgentSpawner.spawn ⟨.linux⟩ ((fun _ => cEnv) j) a.type a.prompt a.name
            (a.model_tier.getD "default") none (some "42") none).outcome = .ok info :=
  ⟨by decide,
   spawn_multi_in_order .linux (fun _ => cEnv) cAgents (some "42") (by decide)⟩

/-- C4: branch preparation is idempotent: a per-branch step creates a
branch only when the existence query reports it absent, a run over
already-existing branches issues no branch-creating git command and
leaves the git state untouched, and running the preparation twice from
any git state yields exactly the branches of a single run. -/
theorem prepare_branches_idempotent :
    (∀ st pfx a i, branchName pfx a i ∈ st.branches →
       (prepareBranchStep st pfx a i).1 = st ∧
       ∀ c ∈ (prepareBranchStep st pfx a i).2, c.isBranchCreate = false) ∧
    (∀ st pfx a i, branchName pfx a i ∉ st.branches →
       (prepareBranchStep st pfx a i).1.branches = branchName pfx a i :: st.branches) ∧
    (∀ st pfx types,
       (∀ j (hj : j < types.length), branchName pfx (types.get ⟨j, hj⟩) j ∈ st.branches) →
       (prepareBranches st pfx types).1 = st ∧
       ∀ c ∈ (prepareBranches st pfx types).2, c.isBranchCreate = false) ∧
    (∀ st pfx types,
       (prepareBranches (prepareBranches st pfx types).1 pfx types).1
         = (prepareBranches st pfx types).1 ∧
       (prepareBranches (prepareBranches st pfx types).1 pfx types).1.branches
         = (prepareBranches st pfx types).1.branches) := by
  refine ⟨?_, ?_, ?_, ?_⟩
  · intro st pfx a i h
    rw [prepareBranchStep_of_mem st pfx a i h]
    refine ⟨rfl, ?_⟩
    intro c hc
    rcases List.mem_singleton.mp hc with rfl
    rfl
  · intro st pfx a i h
    rw [prepareBranchStep_of_not_mem st pfx a i h]
  · intro st pfx types hall
    exact prepareBranchesAux_of_all pfx types st 0 (fun j hj => by simpa using hall j hj)
  · intro st pfx types
    have hpost := fun j hj => prepareBranchesAux_post pfx types st 0 j hj
    have hfix :=
      (prepareBranchesAux_of_all pfx types (prepareBranchesAux pfx st types 0).1 0 hpost).1
    exact ⟨hfix, congrArg GitState.branches hfix⟩

/-- Witness for `prepare_branches_idempotent`: the all-branches-present
run on `preparedGit` is a no-op without branch creation. -/
theorem prepare_branches_idempotent_witness :
    (∀ j (hj : j < (["claude"] : List String).length),
       branchName "challenge/agent" ((["claude"] : List String).get ⟨j, hj⟩) j
         ∈ preparedGit.branches) ∧
    ((prepareBranches preparedGit "challenge/agent" ["claude"]).1 = preparedGit ∧
     ∀ c ∈ (prepareBranches preparedGit "challenge/agent" ["claude"]).2,
       c.isBranchCreate = false) :=
  ⟨by decide,
   prepare_branches_idempotent.2.2.1 preparedGit "challenge/agent" ["claude"] (by decide)⟩

/-- C3 counterexample: with the branch absent, a single per-branch
preparation step performs three blocking subprocess calls
(`git branch --list`, `git checkout -b`, `git checkout -`), not one. -/
theorem branch_step_three_calls :
    blockingCount (prepareBranchStep mainGit "challenge/agent" "claude" 0).2 = 3 ∧
    blockingCount (prepareBranchStep mainGit "challenge/agent" "claude" 0).2 ≠ 1 := by
  decide

/-- C3 amended: the tmux and macOS launchers and the linux
list/kill/capture operations each make exactly one blocking subprocess
call; the Windows launcher makes one non-blocking `Popen` call;
`attach_session` replaces the process and makes no subprocess call; the
non-linux session operations make no subprocess call at all; and a
per-branch preparation step makes one blocking git call when the branch
exists and three when it has to be created. -/
theorem single_call_profile :
    (∀ env s c w, (spawn_tmux env s c w).2.length = 1 ∧
       blockingCount (spawn_tmux env s c w).2 = 1) ∧
    (∀ env s c w, (spawn_macos env s c w).2.length = 1 ∧
       blockingCount (spawn_macos env s c w).2 = 1) ∧
    (∀ env s c w, (spawn_windows env s c w).2.length = 1 ∧
       blockingCount (spawn_windows env s c w).2 = 0) ∧
    (∀ env t, blockingCount (AgentSpawner.list_sessions ⟨.linux⟩ env t).2 = 1) ∧
    (∀ env s, blockingCount (AgentSpawner.kill_session ⟨.linux⟩ env s).2 = 1) ∧
    (∀ env s n, blockingCount (AgentSpawner.capture_output ⟨.linux⟩ env s n).2 = 1) ∧
    (∀ s, (AgentSpawner.attach_session ⟨.linux⟩ s).length = 1 ∧
       blockingCount (AgentSpawner.attach_session ⟨.linux⟩ s) = 0) ∧
    (∀ p env t, p ≠ Platform.linux → (AgentSpawner.list_sessions ⟨p⟩ env t).2 = []) ∧
    (∀ p env s, p ≠ Platform.linux → (AgentSpawner.kill_session ⟨p⟩ env s).2 = []) ∧
    (∀ p env s n, p ≠ Platform.linux → (AgentSpawner.capture_output ⟨p⟩ env s n).2 = []) ∧
    (∀ p s, p ≠ Platform.linux → AgentSpawner.attach_session ⟨p⟩ s = []) ∧
    (∀ st pfx a i, branchName pfx a i ∈ st.branches →
       blockingCount (prepareBranchStep st pfx a i).2 = 1) ∧
    (∀ st pfx a i, branchName pfx a i ∉ st.branches →
       blockingCount (prepareBranchStep st pfx a i).2 = 3) := by
  refine ⟨fun env s c w => ⟨rfl, rfl⟩, fun env s c w => ⟨rfl, rfl⟩,
    fun env s c w => ⟨rfl, rfl⟩, fun env t => rfl, fun env s => rfl,
    fun env s n => rfl, fun s => ⟨rfl, rfl⟩, ?_, ?_, ?_, ?_, ?_, ?_⟩
  · intro p env t h
    cases p with
    | linux => exact absurd rfl h
    | macos => rfl
    | windows => rfl
  · intro p env s h
    cases p with
    | linux => exact absurd rfl h
    | macos => rfl
    | windows => rfl
  · intro p env s n h
    cases p with
    | linux => exact absurd rfl h
    | macos => rfl
    | windows => rfl
  · intro p s h
    cases p with
    | linux => exact absurd rfl h
    | macos => rfl
    | windows => rfl
  · intro st pfx a i h
    rw [prepareBranchStep_of_mem st pfx a i h]
    rfl
  · intro st pfx a i h
    rw [prepareBranchStep_of_not_mem st pfx a i h]
    rfl

/-- Witness for `single_call_profile`: the hypothesis-bearing conjuncts
instantiated on macOS and on the two git states. -/
theorem single_call_profile_witness :
    (Platform.macos ≠ Platform.linux ∧
     (AgentSpawner.list_sessions ⟨Platform.macos⟩ cEnv none).2 = [] ∧
     (AgentSpawner.kill_session ⟨Platform.macos⟩ cEnv "s").2 = [] ∧
     (AgentSpawner.capture_output ⟨Platform.macos⟩ cEnv "s" 1000).2 = [] ∧
     AgentSpawner.attach_session ⟨Platform.macos⟩ "s" = []) ∧
    (branchName "challenge/agent" "claude" 0 ∈ preparedGit.branches ∧
     blockingCount (prepareBranchStep preparedGit "challenge/agent" "claude" 0).2 = 1) ∧
    (branchName "challenge/agent" "claude" 0 ∉ mainGit.branches ∧
     blockingCount (prepareBranchStep mainGit "challenge/agent" "claude" 0).2 = 3) :=
  ⟨⟨by decide,
    single_call_profile.2.2.2.2.2.2.2.1 Platform.macos cEnv none (by decide),
    single_call_profile.2.2.2.2.2.2.2.2.1 Platform.macos cEnv "s" (by decide),
    single_call_profile.2.2.2.2.2.2.2.2.2.1 Platform.macos cEnv "s" 1000 (by decide),
    single_call_profile.2.2.2.2.2.2.2.2.2.2.1 Platform.macos "s" (by decide)⟩,
   ⟨by decide,
    single_call_profile.2.2.2.2.2.2.2.2.2.2.2.1 preparedGit "challenge/agent" "claude" 0
      (by decide)⟩,
   ⟨by decide,
    single_call_profile.2.2.2.2.2.2.2.2.2.2.2.2 mainGit "challenge/agent" "claude" 0
      (by decide)⟩⟩

/-- C5 counterexample: constructing the orchestrator over a challenge
dictionary with no `id` key fails with a missing-key error, contrary to
the claim that every challenge access is a defaulted lookup. -/
theorem orchestrator_init_missing_id :
    orchInit emptyChallenge "20250101_000000" Platform.linux = .error "KeyError: id" := rfl

/-- C5 amended: only `_prepare_branches` (and the `prompt` /
`model_tier` reads) touch the challenge exclusively through defaulted
lookups — on the empty challenge they fall back to branch stem
`challenge/agent` and agent list `["claude"]`.  The other operations
index keys directly and fail with a missing-key error at the first
directly indexed absent key: construction and `monitor` fail exactly
when `id` is missing; `_build_prompt` exactly when `id` or `name` is
missing; `prepare` exactly when one of `id`, `name`, `type`,
`difficulty` is missing; `spawn_agents` exactly when `id` is missing or
when `name` is missing while the agent-type list is non-empty — with an
empty `agents.types` list its loop body never runs, so a missing `name`
raises nothing there. -/
theorem challenge_access_profile :
    (branchPfxOf emptyChallenge = "challenge/agent" ∧
     agentTypesOf emptyChallenge = ["claude"] ∧
     ∀ st, prepareBranchesOf emptyChallenge st
       = prepareBranches st "challenge/agent" ["claude"]) ∧
    (∀ (ch : Challenge) (now : String) (p : Platform),
       ch.id = none → orchInit ch now p = .error "KeyError: id") ∧
    (∀ (ch : Challenge) (now : String) (p : Platform),
       ch.id ≠ none → ∃ o, orchInit ch now p = .ok o) ∧
    (∀ (o : Orchestrator) (st : GitState),
       o.challenge.id = none → (o.prepare st).keyError = some "id") ∧
    (∀ (o : Orchestrator) (st : GitState),
       o.challenge.id ≠ none → o.challenge.name = none →
       (o.prepare st).keyError = some "name") ∧
    (∀ (o : Orchestrator) (st : GitState),
       o.challenge.id ≠ none → o.challenge.name ≠ none →
       o.challenge.ctype = none → (o.prepare st).keyError = some "type") ∧
    (∀ (o : Orchestrator) (st : GitState),
       o.challenge.id ≠ none → o.challenge.name ≠ none →
       o.challenge.ctype ≠ none → o.challenge.difficulty = none →
       (o.prepare st).keyError = some "difficulty") ∧
    (∀ (o : Orchestrator) (st : GitState),
       o.challenge.id ≠ none → o.challenge.name ≠ none →
       o.challenge.ctype ≠ none → o.challenge.difficulty ≠ none →
       (o.prepare st).keyError = none) ∧
    (∀ (o : Orchestrator) (t : String) (i : Nat),
       o.challenge.id = none → (o.build_prompt t i).keyError = some "id") ∧
    (∀ (o : Orchestrator) (t : String) (i : Nat),
       o.challenge.id ≠ none → o.challenge.name = none →
       (o.build_prompt t i).keyError = some "name") ∧
    (∀ (o : Orchestrator) (t : String) (i : Nat),
       o.challenge.id ≠ none → o.challenge.name ≠ none →
       (o.build_prompt t i).keyError = none) ∧
    (∀ (o : Orchestrator) (envs : Nat → SpawnEnv),
       o.challenge.id = none → (o.spawn_agents envs).keyError = some "id") ∧
    (∀ (o : Orchestrator) (envs : Nat → SpawnEnv),
       o.challenge.id ≠ none → agentTypesOf o.challenge ≠ [] →
       o.challenge.name = none → (o.spawn_agents envs).keyError = some "name") ∧
    (∀ (o : Orchestrator) (envs : Nat → SpawnEnv),
       o.challenge.id ≠ none → o.challenge.name ≠ none →
       (o.spawn_agents envs).keyError = none) ∧
    (∀ (o : Orchestrator) (envs : Nat → SpawnEnv),
       o.challenge.id ≠ none → agentTypesOf o.challenge = [] →
       (o.spawn_agents envs).keyError = none) ∧
    (∀ (o : Orchestrator) (envs : Nat → SpawnEnv) (fuel : Nat),
       o.challenge.id = none →
       (o.monitor envs (fuel + 1)).keyError = some "id") ∧
    (∀ (o : Orchestrator) (envs : Nat → SpawnEnv) (fuel : Nat),
       o.challenge.id ≠ none → (o.monitor envs fuel).keyError = none) := by
  refine ⟨⟨rfl, rfl, fun st => rfl⟩, ?_, ?_, ?_, ?_, ?_, ?_, ?_, ?_, ?_, ?_, ?_, ?_, ?_, ?_,
    ?_, ?_⟩
  · intro ch now p h
    simp [orchInit, h]
  · intro ch now p h
    obtain ⟨cid, hcid⟩ := Option.ne_none_iff_exists.mp h
    refine ⟨{ challenge := ch
              run_id := now
              run_dir := RUNS_DIR ++ "/" ++ cid ++ "_" ++ now
              spawner := ⟨p⟩ }, ?_⟩
    unfold orchInit
    rw [← hcid]
  · intro o st h
    simp [Orchestrator.prepare, h]
  · intro o st h1 h2
    obtain ⟨cid, hcid⟩ := Option.ne_none_iff_exists.mp h1
    simp [Orchestrator.prepare, ← hcid, h2]
  · intro o st h1 h2 h3
    obtain ⟨cid, hcid⟩ := Option.ne_none_iff_exists.mp h1
    obtain ⟨cname, hname⟩ := Option.ne_none_iff_exists.mp h2
    simp [Orchestrator.prepare, ← hcid, ← hname, h3]
  · intro o st h1 h2 h3 h4
    obtain ⟨cid, hcid⟩ := Option.ne_none_iff_exists.mp h1
    obtain ⟨cname, hname⟩ := Option.ne_none_iff_exists.mp h2
    obtain ⟨ct, hct⟩ := Option.ne_none_iff_exists.mp h3
    simp [Orchestrator.prepare, ← hcid, ← hname, ← hct, h4]
  · intro o st h1 h2 h3 h4
    obtain ⟨cid, hcid⟩ := Option.ne_none_iff_exists.mp h1
    obtain ⟨cname, hname⟩ := Option.ne_none_iff_exists.mp h2
    obtain ⟨ct, hct⟩ := Option.ne_none_iff_exists.mp h3
    obtain ⟨cd, hd⟩ := Option.ne_none_iff_exists.mp h4
    simp [Orchestrator.prepare, ← hcid, ← hname, ← hct, ← hd]
  · intro o t i h
    simp [Orchestrator.build_prompt, h]
  · intro o t i h1 h2
    obtain ⟨cid, hcid⟩ := Option.ne_none_iff_exists.mp h1
    simp [Orchestrator.build_prompt, ← hcid, h2]
  · intro o t i h1 h2
    obtain ⟨cid, hcid⟩ := Option.ne_none_iff_exists.mp h1
    obtain ⟨cname, hname⟩ := Option.ne_none_iff_exists.mp h2
    simp [Orchestrator.build_prompt, ← hcid, ← hname]
  · intro o envs h
    simp [Orchestrator.spawn_agents, h]
  · intro o envs h1 h2 h3
    obtain ⟨cid, hcid⟩ := Option.ne_none_iff_exists.mp h1
    have hne : (agentTypesOf o.challenge).isEmpty = false := by
      cases hx : agentTypesOf o.challenge with
      | nil => exact absurd hx h2
      | cons a l => rfl
    simp [Orchestrator.spawn_agents, ← hcid, h3, hne]
  · intro o envs h1 h2
    obtain ⟨cid, hcid⟩ := Option.ne_none_iff_exists.mp h1
    obtain ⟨cname, hname⟩ := Option.ne_none_iff_exists.mp h2
    simp [Orchestrator.spawn_agents, ← hcid, ← hname]
  · intro o envs h1 h2
    obtain ⟨cid, hcid⟩ := Option.ne_none_iff_exists.mp h1
    simp [Orchestrator.spawn_agents, ← hcid, h2]
  · intro o envs fuel h
    simp [Orchestrator.monitor, h]
  · intro o envs fuel h
    exact monitor_keyError_none o h envs fuel

/-- Witness for `challenge_access_profile`: the key-presence conjuncts
instantiated on the empty, the id-only, the empty-types and the fully
populated challenge. -/
theorem challenge_access_profile_witness :
    (emptyChallenge.id = none ∧
     orchInit emptyChallenge "20250102_000000" Platform.linux = .error "KeyError: id") ∧
    (fullChallenge.id ≠ none ∧
     ∃ o, orchInit fullChallenge "20250101_000000" Platform.linux = .ok o) ∧
    ((cOrch.challenge.id ≠ none ∧ cOrch.challenge.name ≠ none ∧
      cOrch.challenge.ctype ≠ none ∧ cOrch.challenge.difficulty ≠ none) ∧
     (cOrch.prepare mainGit).keyError = none) ∧
    ((idOnlyOrch.challenge.id ≠ none ∧ idOnlyOrch.challenge.name = none) ∧
     (idOnlyOrch.prepare mainGit).keyError = some "name") ∧
    ((idOnlyOrch.challenge.id ≠ none ∧ idOnlyOrch.challenge.name = none) ∧
     (idOnlyOrch.build_prompt "claude" 0).keyError = some "name") ∧
    (emptyOrch.challenge.id = none ∧
     (emptyOrch.spawn_agents (fun _ => cEnv)).keyError = some "id") ∧
    ((idOnlyOrch.challenge.id ≠ none ∧ agentTypesOf idOnlyOrch.challenge ≠ [] ∧
      idOnlyOrch.challenge.name = none) ∧
     (idOnlyOrch.spawn_agents (fun _ => cEnv)).keyError = some "name") ∧
    ((emptyTypesOrch.challenge.id ≠ none ∧ agentTypesOf emptyTypesOrch.challenge = [] ∧
      emptyTypesOrch.challenge.name = none) ∧
     (emptyTypesOrch.spawn_agents (fun _ => cEnv)).keyError = none) ∧
    (cOrch.challenge.id ≠ none ∧ (cOrch.monitor (fun _ => cEnv) 2).keyError = none) := by
  obtain ⟨-, hinitF, hinitOk, hprepId, hprepName, hprepType, hprepDiff, hprepOk,
    hbpId, hbpName, hbpOk, hsaId, hsaName, hsaOkName, hsaOkEmpty, hmonF, hmonOk⟩ :=
    challenge_access_profile
  exact ⟨⟨rfl, hinitF emptyChallenge "20250102_000000" Platform.linux rfl⟩,
    ⟨by decide, hinitOk fullChallenge "20250101_000000" Platform.linux (by decide)⟩,
    ⟨⟨by decide, by decide, by decide, by decide⟩,
     hprepOk cOrch mainGit (by decide) (by decide) (by decide) (by decide)⟩,
    ⟨⟨by decide, rfl⟩, hprepName idOnlyOrch mainGit (by decide) rfl⟩,
    ⟨⟨by decide, rfl⟩, hbpName idOnlyOrch "claude" 0 (by decide) rfl⟩,
    ⟨rfl, hsaId emptyOrch (fun _ => cEnv) rfl⟩,
    ⟨⟨by decide, by decide, rfl⟩,
     hsaName idOnlyOrch (fun _ => cEnv) (by decide) (by decide) rfl⟩,
    ⟨⟨by decide, by decide, rfl⟩,
     hsaOkEmpty emptyTypesOrch (fun _ => cEnv) (by decide) (by decide)⟩,
    ⟨by decide, hmonOk cOrch (fun _ => cEnv) 2 (by decide)⟩⟩

/-- C6: the challenge record is loaded once and never mutated:
construction stores the loaded value, and `prepare`, `spawn_agents`,
`_build_prompt`, `monitor` and `run` all leave `self.challenge` equal to
it (`_prepare_branches` is embedded as a pure function of the challenge
and cannot write it). -/
theorem challenge_loaded_once :
    (∀ (ch : Challenge) (now : String) (p : Platform) (o : Orchestrator),
       orchInit ch now p = .ok o → o.challenge = ch) ∧
    (∀ (o : Orchestrator) (st : GitState), (o.prepare st).self.challenge = o.challenge) ∧
    (∀ (o : Orchestrator) (envs : Nat → SpawnEnv),
       (o.spawn_agents envs).self.challenge = o.challenge) ∧
    (∀ (o : Orchestrator) (t : String) (i : Nat),
       (o.build_prompt t i).self.challenge = o.challenge) ∧
    (∀ (o : Orchestrator) (envs : Nat → SpawnEnv) (fuel : Nat),
       (o.monitor envs fuel).self.challenge = o.challenge) ∧
    (∀ (o : Orchestrator) (st : GitState) (envs : Nat → SpawnEnv) (sk : Bool),
       (o.run st envs sk).self.challenge = o.challenge) := by
  refine ⟨?_, ?_, ?_, ?_, ?_, ?_⟩
  · intro ch now p o h
    unfold orchInit at h
    cases hid : ch.id with
    | none => rw [hid] at h; exact absurd h (by simp)
    | some cid =>
      rw [hid] at h
      simp only [Except.ok.injEq] at h
      rw [← h]
  · intro o st; rw [prepare_self]
  · intro o envs; rw [spawn_agents_self]
  · intro o t i; rw [build_prompt_self]
  · intro o envs fuel; rw [monitor_self]
  · intro o st envs sk; rw [run_self]

/-- Witness for `challenge_loaded_once`: construction over the full
challenge yields exactly `cOrch`, whose challenge is the loaded value. -/
theorem challenge_loaded_once_witness :
    (orchInit fullChallenge "20250101_000000" Platform.linux = .ok cOrch) ∧
    cOrch.challenge = fullChallenge :=
  ⟨rfl, challenge_loaded_once.1 fullChallenge "20250101_000000" Platform.linux cOrch rfl⟩

/-- C8 counterexample: on macOS the spawner answers `list_sessions`
without ever querying the multiplexer — it makes no subprocess call and
returns `[]` even though the environment reports a live session. -/
theorem list_sessions_macos_no_query :
    AgentSpawner.list_sessions ⟨Platform.macos⟩ sessionsEnv none = ([], []) ∧
    (sessionsEnv.runOutcome
      ["tmux", "list-sessions", "-F", "#\x7bsession_name\x7d"]).stdout ≠ "" :=
  ⟨rfl, by decide⟩

/-- C8 amended: the spawner's only instance state is the detected
platform; on linux every `list_sessions` call issues one fresh tmux
query and derives its result solely from that query's stdout, filtered
by the agent-type name test when one is given; on the other platforms
`list_sessions` returns `[]` without any query. -/
theorem session_state_profile :
    (∀ s1 s2 : AgentSpawner, s1.platform = s2.platform → s1 = s2) ∧
    (∀ (env : SpawnEnv) (t : Option String),
       (AgentSpawner.list_sessions ⟨.linux⟩ env t).2
         = [SysCall.run ["tmux", "list-sessions", "-F", "#\x7bsession_name\x7d"]]) ∧
    (∀ (env : SpawnEnv) (t : String),
       (AgentSpawner.list_sessions ⟨.linux⟩ env (some t)).1
         = ((AgentSpawner.list_sessions ⟨.linux⟩ env none).1).filter
             (fun s => pyStartswith s t)) ∧
    (∀ env : SpawnEnv,
       (AgentSpawner.list_sessions ⟨.linux⟩ env none).1
         = (if (env.runOutcome
                ["tmux", "list-sessions", "-F", "#\x7bsession_name\x7d"]).stdout ≠ "" then
              ((env.runOutcome
                ["tmux", "list-sessions", "-F", "#\x7bsession_name\x7d"]).stdout.trim.splitOn
                "\n")
            else [])) ∧
    (∀ (p : Platform) (env : SpawnEnv) (t : Option String), p ≠ Platform.linux →
       AgentSpawner.list_sessions ⟨p⟩ env t = ([], [])) := by
  refine ⟨?_, fun env t => rfl, fun env t => rfl, fun env => rfl, ?_⟩
  · intro s1 s2 h
    cases s1
    cases s2
    exact congrArg AgentSpawner.mk h
  · intro p env t h
    cases p with
    | linux => exact absurd rfl h
    | macos => rfl
    | windows => rfl

/-- Witness for `session_state_profile` on concrete spawners. -/
theorem session_state_profile_witness :
    ((AgentSpawner.mk Platform.linux).platform = (AgentSpawner.mk Platform.linux).platform ∧
     AgentSpawner.mk Platform.linux = AgentSpawner.mk Platform.linux) ∧
    (Platform.windows ≠ Platform.linux ∧
     AgentSpawner.list_sessions ⟨Platform.windows⟩ sessionsEnv (some "claude") = ([], [])) :=
  ⟨⟨rfl, session_state_profile.1 ⟨Platform.linux⟩ ⟨Platform.linux⟩ rfl⟩,
   ⟨by decide,
    session_state_profile.2.2.2.2 Platform.windows sessionsEnv (some "claude") (by decide)⟩⟩

/-- C10: a spawn without an explicit session name names the session
`<agent_type>_<timestamp>_<uuid6>`, which begins with the agent type
followed by an underscore; consequently every such session the
multiplexer reports is included in `list_sessions` for that agent
type. -/
theorem auto_named_sessions_listed (sp : AgentSpawner) (env listEnv : SpawnEnv)
    (agent_type prompt model_tier : String)
    (working_dir challenge_id output_file : Option String) (info : SpawnInfo)
    (hok : (sp.spawn env agent_type prompt none model_tier working_dir challenge_id
      output_file).outcome = .ok info) :
    info.session_name = autoSessionName agent_type env ∧
    pyStartswith info.session_name (agent_type ++ "_") = true ∧
    (info.session_name ∈ (AgentSpawner.list_sessions ⟨.linux⟩ listEnv none).1 →
     info.session_name ∈ (AgentSpawner.list_sessions ⟨.linux⟩ listEnv (some agent_type)).1) := by
  have h1 : info.session_name = autoSessionName agent_type env := by
    simp only [AgentSpawner.spawn] at hok
    cases hb : buildCmd agent_type (escapeQuotes prompt) (resolveModel agent_type model_tier) with
    | none => rw [hb] at hok; exact absurd hok (by simp)
    | some c =>
      rw [hb] at hok
      simp only [Except.ok.injEq] at hok
      rw [← hok]
  have hpre : (agent_type ++ "_").data <+: (autoSessionName agent_type env).data := by
    simp only [autoSessionName, String.data_append]
    exact ((List.prefix_append _ _).trans (List.prefix_append _ _)).trans
      (List.prefix_append _ _)
  have htype : agent_type.data <+: (autoSessionName agent_type env).data := by
    refine List.IsPrefix.trans ?_ hpre
    simp only [String.data_append]
    exact List.prefix_append _ _
  refine ⟨h1, ?_, ?_⟩
  · rw [h1]
    simpa [pyStartswith] using hpre
  · intro hmem
    rw [list_sessions_filter_eq]
    refine List.mem_filter.mpr ⟨hmem, ?_⟩
    rw [h1]
    simpa [pyStartswith] using htype

/-- Witness for `auto_named_sessions_listed` at agent type `"claude"`
and the concrete environment `cEnv`. -/
theorem auto_named_sessions_listed_witness :
    ((AgentSpawner.spawn ⟨Platform.linux⟩ cEnv "claude" "p" none "default" none none
        none).outcome = .ok cInfo) ∧
    (cInfo.session_name = autoSessionName "claude" cEnv ∧
     pyStartswith cInfo.session_name ("claude" ++ "_") = true ∧
     (cInfo.session_name ∈ (AgentSpawner.list_sessions ⟨.linux⟩ sessionsEnv none).1 →
      cInfo.session_name
        ∈ (AgentSpawner.list_sessions ⟨.linux⟩ sessionsEnv (some "claude")).1)) :=
  ⟨rfl, auto_named_sessions_listed ⟨Platform.linux⟩ cEnv sessionsEnv "claude" "p" "default"
    none none none cInfo rfl⟩
